import Mathlib

/-!
# Self-healing auditor front end: result rendering

A shallow embedding of `src/frontend/app.js`.

Modelling conventions.

* JavaScript strings are Lean `String`s.
* A numeric field of the response (`iteration`, `total_iterations`, `line_number`) is the
  non-negative integer written in the JSON text, a `Nat`.  The JavaScript number that
  holds it is `toNumber n`: the integer rounded to a double.  `numberSucc` is the sum
  `x + 1` on such numbers and `numberToString` their rendering in a template literal.
* A field that may be absent or `null` is an `Option`.
* The HTML parser and serialiser of the browser are a parameter, `Browser Dom`: the
  `innerHTML` setter is `parse`, the getter is `serialize`, and the statement
  `body.innerHTML += text` gives the body `parse (serialize body ++ text)`.  `unparsed` is
  the stand-in that keeps the text it is given; under it the body of a card is the text
  the script hands to the parser.
* `element.classList` is a list of class tokens with the `add` / `remove` operations of
  an ordered set.
* The page is a record `View` of the elements looked up at the top of the script,
  extended by logs of the observable effects (`alert`, `fetch`, `console.error`,
  `scrollIntoView`).
* `await fetch(...)` is resolved by an explicit `FetchOutcome` argument; the handler is
  run to completion without interleaving other events.
-/

namespace Auditor

/-! ## Data received from the audit service -/

/-- One finding of an audit report. -/
structure Vulnerability where
  severity : String
  cwe_id : String
  description : String
  line_number : Option Nat
  suggested_fix_snippet : String
  deriving DecidableEq, Repr

/-- The audit report of one iteration. -/
structure AuditReport where
  is_safe : Bool
  summary : String
  vulnerabilities : List Vulnerability
  deriving DecidableEq, Repr

/-- One audit/fix iteration; `fix_applied` is `none` when absent or `null`. -/
structure IterationRecord where
  iteration : Nat
  code_snapshot : String
  audit_report : AuditReport
  fix_applied : Option String
  deriving DecidableEq, Repr

/-- The parsed body of a successful response. -/
structure SessionResult where
  final_status : String
  total_iterations : Nat
  history : List IterationRecord
  deriving DecidableEq, Repr

/-! ## Numbers -/

/-- A JavaScript number whose value is a non-negative integer, or `Infinity`. -/
inductive JSNumber where
  | finite (value : Nat)
  | infinity
  deriving DecidableEq, Repr

/-- The number of binary digits of `n`, by halving at most `fuel` times. -/
def bitLengthAux : Nat → Nat → Nat
  | 0, _ => 0
  | fuel + 1, n => if n = 0 then 0 else bitLengthAux fuel (n / 2) + 1

/-- The number of binary digits of `n`. -/
def bitLength (n : Nat) : Nat := bitLengthAux n n

/-- The number that holds the integer `n`, as `JSON.parse` and the arithmetic of
JavaScript produce it: `n` rounded to 53 significant binary digits, to the nearest and to
the even one on a tie; `Infinity` when the rounded value needs more than 1024 binary
digits. -/
def toNumber (n : Nat) : JSNumber :=
  let e := bitLength n - 53
  let q := n / 2 ^ e
  let r := n % 2 ^ e
  let m := if 2 ^ e < 2 * r ∨ (2 * r = 2 ^ e ∧ q % 2 = 1) then q + 1 else q
  if 1024 < bitLength (m * 2 ^ e) then JSNumber.infinity else JSNumber.finite (m * 2 ^ e)

/-- The sum `x + 1` of JavaScript. -/
def numberSucc : JSNumber → JSNumber
  | JSNumber.finite value => toNumber (value + 1)
  | JSNumber.infinity => JSNumber.infinity

/-- The digits `s` of length `k`, if any, for which `s * 10 ^ (d - k)` is held by the
number `x` of `d` decimal digits: the one nearest to `x`, the even one on a tie. -/
def shortestCandidate (x d k : Nat) : Option Nat :=
  let p := d - k
  let lo := x / 10 ^ p
  let hi := lo + 1
  let okLo := decide (toNumber (lo * 10 ^ p) = JSNumber.finite x)
  let okHi := decide (hi < 10 ^ k) && decide (toNumber (hi * 10 ^ p) = JSNumber.finite x)
  if okLo && okHi then
    let dLo := x - lo * 10 ^ p
    let dHi := hi * 10 ^ p - x
    if dLo < dHi then some lo
    else if dHi < dLo then some hi
    else if lo % 2 = 0 then some lo else some hi
  else if okLo then some lo
  else if okHi then some hi
  else none

/-- The search for the least number of digits `k`, from `k` upwards. -/
def shortestSearch (x d : Nat) : Nat → Nat → Nat × Nat
  | 0, _ => (x, d)
  | fuel + 1, k =>
    match shortestCandidate x d k with
    | some s => (s, k)
    | none => shortestSearch x d fuel (k + 1)

/-- The integers `(s, k, n)` of `Number::toString` for a number `x` above 2^53: `k` is
the least number of digits, `s` the digits, and `s * 10 ^ (n - k)` the decimal value that
stands for `x`. -/
def shortestDigits (x : Nat) : Nat × Nat × Nat :=
  let d := (Nat.toDigits 10 x).length
  if toNumber (10 ^ d) = JSNumber.finite x then (1, 1, d + 1)
  else
    let sk := shortestSearch x d d 1
    (sk.1, sk.2, d)

/-- The operation `Number::toString`, which renders a number in a template literal.  A
number up to 2^53 holds its integer exactly and shows all its digits; above, the
shortest digits that identify the number are shown, followed by zeros below 10^21 and in
exponent form from 10^21 on. -/
def numberToString : JSNumber → String
  | JSNumber.infinity => "Infinity"
  | JSNumber.finite x =>
    if x ≤ 2 ^ 53 then toString x
    else
      let skn := shortestDigits x
      let s := skn.1
      let k := skn.2.1
      let n := skn.2.2
      if n ≤ 21 then String.mk (Nat.toDigits 10 s ++ List.replicate (n - k) '0')
      else if k = 1 then toString s ++ "e+" ++ toString (n - 1)
      else
        String.mk ((Nat.toDigits 10 s).take 1) ++ "." ++ String.mk ((Nat.toDigits 10 s).drop 1)
          ++ "e+" ++ toString (n - 1)

/-! ## `escapeHtml` -/

/-- The character U+00A0 (no-break space). -/
def nbsp : Char := Char.ofNat 0xA0

/-- Serialisation of one character of a text node, as done by the `innerHTML` getter:
`&`, `<`, `>` and U+00A0 become entities, every other character is kept. -/
def escapeChar (c : Char) : List Char :=
  if c = '&' then ['&', 'a', 'm', 'p', ';']
  else if c = '<' then ['&', 'l', 't', ';']
  else if c = '>' then ['&', 'g', 't', ';']
  else if c = nbsp then ['&', 'n', 'b', 's', 'p', ';']
  else [c]

/-- Serialisation of the characters of a text node. -/
def escapeChars : List Char → List Char
  | [] => []
  | c :: cs => escapeChar c ++ escapeChars cs

/-- The function `escapeHtml(text)`: a fresh `div` gets `text` as its `textContent` and
its `innerHTML` is read back, which is the serialisation of that single text node. -/
def escapeHtml (text : String) : String := String.mk (escapeChars text.data)

/-- The four entities that `escapeHtml` can produce. -/
def entityNames : List (List Char) :=
  [['&', 'a', 'm', 'p', ';'], ['&', 'l', 't', ';'], ['&', 'g', 't', ';'],
   ['&', 'n', 'b', 's', 'p', ';']]

/-- Decoding of the entities `&amp;`, `&lt;`, `&gt;` and `&nbsp;`, left to right; this is
how a reader of the markup turns escaped text back into the characters shown. -/
def decodeEntities : List Char → List Char
  | [] => []
  | c :: rest =>
    if c = '&' then
      match rest with
      | 'a' :: 'm' :: 'p' :: ';' :: r => '&' :: decodeEntities r
      | 'l' :: 't' :: ';' :: r => '<' :: decodeEntities r
      | 'g' :: 't' :: ';' :: r => '>' :: decodeEntities r
      | 'n' :: 'b' :: 's' :: 'p' :: ';' :: r => nbsp :: decodeEntities r
      | r => c :: decodeEntities r
    else c :: decodeEntities rest

/-- Decoding of the entities of a string. -/
def decodeHtml (markup : String) : String := String.mk (decodeEntities markup.data)

/-! ## Markup templates of a card -/

/-- The function `createVulnerabilityHTML(vuln)`.  The `line_number` test is JavaScript
truthiness of an optional number: present and not zero. -/
def createVulnerabilityHTML (vuln : Vulnerability) : String :=
  "\n        <div class=\"vulnerability " ++ vuln.severity
  ++ "\">\n            <div class=\"vuln-header\">\n                <span class=\"severity-badge "
  ++ vuln.severity ++ "\">" ++ vuln.severity
  ++ "</span>\n                <span class=\"cwe-tag\">" ++ vuln.cwe_id
  ++ "</span>\n            </div>\n            <div class=\"vuln-description\">"
  ++ vuln.description ++ "</div>\n            "
  ++ (match vuln.line_number with
      | some n =>
        if toNumber n ≠ JSNumber.finite 0 then
          "<div style=\"color: var(--text-muted); font-size: 0.85rem; margin-bottom: 0.5rem;\">Line "
            ++ numberToString (toNumber n) ++ "</div>"
        else ""
      | none => "")
  ++ "\n            <div class=\"code-label\">Suggested Fix</div>\n            <div class=\"code-block\">\n                <code>"
  ++ escapeHtml vuln.suggested_fix_snippet
  ++ "</code>\n            </div>\n        </div>\n    "

/-- The markup assigned to `header.innerHTML` in `createIterationCard`; `iteration` is
the record's `iteration` field. -/
def iterationHeaderHTML (iteration : Nat) : String :=
  "\n        <span class=\"iteration-title\">Iteration "
  ++ numberToString (numberSucc (toNumber iteration))
  ++ "</span>\n        <span class=\"toggle-icon\">‚ñº</span>\n    "

/-- The "Code Snapshot" text appended to the body in `createIterationCard`. -/
def codeSnapshotHTML (code_snapshot : String) : String :=
  "\n        <div style=\"margin-bottom: 1.5rem;\">\n            <div class=\"code-label\">Code Snapshot</div>\n            <div class=\"code-block\">\n                <code>"
  ++ escapeHtml code_snapshot
  ++ "</code>\n            </div>\n        </div>\n    "

/-- The text appended to the body when `audit_report.is_safe` holds. -/
def safeMessageHTML (summary : String) : String :=
  "\n            <div class=\"safe-message\">\n                <div class=\"safe-icon\">‚úì</div>\n                <h3>No Vulnerabilities Found</h3>\n                <p>"
  ++ summary ++ "</p>\n            </div>\n        "

/-- The count header that opens the text appended when `audit_report.is_safe` does not
hold; `count` is `vulnerabilities.length`. -/
def detectedHeaderHTML (count : Nat) : String :=
  "\n            <div style=\"margin-bottom: 1.5rem;\">\n                <h4 style=\"color: var(--text-secondary); margin-bottom: 1rem;\">\n                    Detected Vulnerabilities ("
  ++ numberToString (toNumber count) ++ ")\n                </h4>\n                "

/-- The closing part of the text appended when `audit_report.is_safe` does not hold. -/
def detectedFooterHTML : String := "\n            </div>\n        "

/-- The text appended to the body when `audit_report.is_safe` does not hold. -/
def detectedVulnerabilitiesHTML (vulnerabilities : List Vulnerability) : String :=
  detectedHeaderHTML vulnerabilities.length
  ++ String.join (vulnerabilities.map fun vuln => createVulnerabilityHTML vuln)
  ++ detectedFooterHTML

/-- The "Applied Fix" text appended to the body when `fix_applied` is truthy. -/
def appliedFixHTML (fix_applied : String) : String :=
  "\n            <div>\n                <div class=\"code-label\">Applied Fix</div>\n                <div class=\"code-block\">\n                    <code>"
  ++ escapeHtml fix_applied
  ++ "</code>\n                </div>\n            </div>\n        "

/-! ## The browser -/

/-- The part of the browser the script relies on to turn markup into content.  `Dom` is
the content of an element (its children). -/
structure Browser (Dom : Type) where
  /-- The content of an element that was just created. -/
  empty : Dom
  /-- The `innerHTML` setter of a `div`: the content parsed from a text. -/
  parse : String → Dom
  /-- The `innerHTML` getter: the text that serialises a content. -/
  serialize : Dom → String
  /-- An element without content serialises to the empty string. -/
  serialize_empty : serialize empty = ""

/-- The stand-in for a browser that keeps markup as the text it is given. -/
def unparsed : Browser String :=
  { empty := "", parse := fun text => text, serialize := fun text => text,
    serialize_empty := rfl }

/-! ## Cards -/

/-- An iteration card: the `div.iteration-card` with its `div.iteration-header` and
`div.iteration-body` children.  `collapsed` tells whether the card's class list holds
`collapsed`; `header` and `body` are the contents of the two children. -/
structure Card (Dom : Type) where
  collapsed : Bool
  header : Dom
  body : Dom
  deriving DecidableEq

/-- The function `createIterationCard(iteration, index)`.  Each `body.innerHTML += text`
reads the body back as text, appends, and parses the whole again. -/
def createIterationCard {Dom : Type} (browser : Browser Dom) (iteration : IterationRecord)
    (_index : Nat) : Card Dom :=
  let header := browser.parse (iterationHeaderHTML iteration.iteration)
  let body := browser.empty
  let body :=
    browser.parse (browser.serialize body ++ codeSnapshotHTML iteration.code_snapshot)
  let body :=
    if iteration.audit_report.is_safe then
      browser.parse (browser.serialize body ++ safeMessageHTML iteration.audit_report.summary)
    else
      browser.parse (browser.serialize body
        ++ detectedVulnerabilitiesHTML iteration.audit_report.vulnerabilities)
  let body :=
    match iteration.fix_applied with
    | some fix =>
      if fix ≠ "" then browser.parse (browser.serialize body ++ appliedFixHTML fix) else body
    | none => body
  { collapsed := false, header := header, body := body }

/-- The click listener installed on a card header: `card.classList.toggle('collapsed')`. -/
def toggleCard {Dom : Type} (card : Card Dom) : Card Dom :=
  { card with collapsed := !card.collapsed }

/-! ## The page -/

/-- The method `classList.add(token)`: the token is appended unless already there. -/
def classListAdd (token : String) (classes : List String) : List String :=
  if token ∈ classes then classes else classes ++ [token]

/-- The method `classList.remove(token)`. -/
def classListRemove (token : String) (classes : List String) : List String :=
  classes.filter fun c => c ≠ token

/-- A `fetch` call issued by the page: its URL, its method, its `Content-Type` header
and the string `code` of the JSON body `JSON.stringify({ code })`. -/
structure Request where
  url : String
  method : String
  contentType : String
  code : String
  deriving DecidableEq, Repr

/-- The state of the page: the elements the script reads and writes, and the effects
it has produced so far (oldest first). -/
structure View (Dom : Type) where
  /-- The text of `codeInput.value`. -/
  codeInput : String
  /-- The flag `analyzeBtn.disabled`. -/
  analyzeDisabled : Bool
  /-- The class list of `loadingDiv`. -/
  loadingClasses : List String
  /-- The class list of `resultsDiv`. -/
  resultsClasses : List String
  /-- The children of `timelineDiv`. -/
  timeline : List (Card Dom)
  /-- The class list of `statusBadge`. -/
  badgeClasses : List String
  /-- The text of `statusIcon`. -/
  statusIcon : String
  /-- The text of `statusText`. -/
  statusText : String
  /-- The text of `iterationCount`. -/
  iterationCount : String
  /-- The messages shown with `alert`. -/
  alerts : List String
  /-- The calls of `fetch`. -/
  requests : List Request
  /-- The messages of the errors passed to `console.error`. -/
  consoleErrors : List String
  /-- The number of calls of `resultsDiv.scrollIntoView`. -/
  scrolls : Nat
  deriving DecidableEq

/-- The function `updateStatusBadge(status)`. -/
def updateStatusBadge {Dom : Type} (status : String) (v : View Dom) : View Dom :=
  let v := { v with badgeClasses := ["status-badge"] }
  if status = "safe" then
    { v with badgeClasses := classListAdd "safe" v.badgeClasses,
             statusIcon := "‚úì",
             statusText := "Code is Secure" }
  else if status = "healed" then
    { v with badgeClasses := classListAdd "healed" v.badgeClasses,
             statusIcon := "\uf8ffüõ°Ô∏è",
             statusText := "Code Healed Successfully" }
  else if status = "max_iterations_reached" then
    { v with badgeClasses := classListAdd "warning" v.badgeClasses,
             statusIcon := "‚ö†Ô∏è",
             statusText := "Max Iterations Reached" }
  else v

/-- The function `renderTimeline(history)`: the timeline is emptied, then one card per
record is appended, in the order of `forEach`. -/
def renderTimeline {Dom : Type} (browser : Browser Dom) (history : List IterationRecord)
    (v : View Dom) : View Dom :=
  let v := { v with timeline := [] }
  history.enum.foldl
    (fun v p => { v with timeline := v.timeline ++ [createIterationCard browser p.2 p.1] }) v

/-- The counter text computed in `displayResults`. -/
def iterationLabel (total_iterations : Nat) : String :=
  numberToString (toNumber total_iterations) ++ " iteration"
    ++ (if toNumber total_iterations ≠ JSNumber.finite 1 then "s" else "")

/-- The function `displayResults(data)`. -/
def displayResults {Dom : Type} (browser : Browser Dom) (data : SessionResult)
    (v : View Dom) : View Dom :=
  let v := updateStatusBadge data.final_status v
  let v := { v with iterationCount := iterationLabel data.total_iterations }
  let v := renderTimeline browser data.history v
  let v := { v with resultsClasses := classListAdd "active" v.resultsClasses }
  { v with scrolls := v.scrolls + 1 }

/-- The function `clearResults()`. -/
def clearResults {Dom : Type} (v : View Dom) : View Dom :=
  { v with codeInput := "", resultsClasses := classListRemove "active" v.resultsClasses }

/-! ## Submission -/

/-- The constant `API_BASE`, from the port of the page's own address. -/
def API_BASE (port : String) : String :=
  if port = "8000" then "/api" else "http://localhost:8000/api"

/-- The characters removed by `String.prototype.trim`: the white space and line
terminator code points of ECMAScript. -/
def isTrimChar (c : Char) : Bool :=
  let n := c.toNat
  n == 0x09 || n == 0x0A || n == 0x0B || n == 0x0C || n == 0x0D || n == 0x20
    || n == 0xA0 || n == 0x1680 || (0x2000 ≤ n && n ≤ 0x200A) || n == 0x2028
    || n == 0x2029 || n == 0x202F || n == 0x205F || n == 0x3000 || n == 0xFEFF

/-- The method `trim()` on the characters of a string. -/
def trimChars (l : List Char) : List Char :=
  ((l.dropWhile isTrimChar).reverse.dropWhile isTrimChar).reverse

/-- The method `String.prototype.trim`. -/
def trim (text : String) : String := String.mk (trimChars text.data)

/-- How the awaited part of `analyzeCode` resolves.  `networkError` is a rejected
`fetch`, with the message of the error.  `response status body` is a fulfilled `fetch`
with that HTTP status; `body` is the result of `response.json()`: the parsed value, or
the message of the error raised for a body that is not valid JSON. -/
inductive FetchOutcome where
  | networkError (message : String)
  | response (status : Nat) (body : Except String SessionResult)

/-- The property `response.ok`: the status is in the range 200 to 299. -/
def responseOk (status : Nat) : Bool := 200 ≤ status && status ≤ 299

/-- The `catch` clause of `analyzeCode`, for an error with the given message. -/
def analyzeCatch {Dom : Type} (message : String) (v : View Dom) : View Dom :=
  { v with
    consoleErrors := v.consoleErrors ++ [message],
    alerts := v.alerts ++
      ["Error: " ++ message
        ++ "\n\nPlease check that:\n1. Backend server is running\n2. NVIDIA_API_KEY is configured in .env"] }

/-- The `try` block of `analyzeCode`, with its `catch` clause. -/
def analyzeTry {Dom : Type} (browser : Browser Dom) (apiBase code : String)
    (outcome : FetchOutcome) (v : View Dom) : View Dom :=
  let v := { v with requests := v.requests ++
    [{ url := apiBase ++ "/audit", method := "POST", contentType := "application/json",
       code := code }] }
  match outcome with
  | .networkError message => analyzeCatch message v
  | .response status body =>
    if !responseOk status then
      analyzeCatch ("HTTP error! status: " ++ numberToString (toNumber status)) v
    else
      match body with
      | .error message => analyzeCatch message v
      | .ok data => displayResults browser data v

/-- The function `analyzeCode()`, run with the given value of `API_BASE` and the given
resolution of the request. -/
def analyzeCode {Dom : Type} (browser : Browser Dom) (apiBase : String)
    (outcome : FetchOutcome) (v : View Dom) : View Dom :=
  let code := trim v.codeInput
  if code = "" then
    { v with alerts := v.alerts ++ ["Please enter some code to analyze"] }
  else
    let v := { v with analyzeDisabled := true,
                      loadingClasses := classListAdd "active" v.loadingClasses,
                      resultsClasses := classListRemove "active" v.resultsClasses }
    let v := analyzeTry browser apiBase code outcome v
    { v with analyzeDisabled := false,
             loadingClasses := classListRemove "active" v.loadingClasses }

/-- A submission fails when the request is rejected, the status is outside the success
range, or the body is not valid JSON. -/
def FetchOutcome.failed : FetchOutcome → Bool
  | .networkError _ => true
  | .response status body =>
    !responseOk status || (match body with | .error _ => true | .ok _ => false)

/-! ## Sample inputs -/

/-- A finding whose description is a piece of markup. -/
def injectedVulnerability : Vulnerability :=
  { severity := "high", cwe_id := "CWE-79", description := "<img src=x onerror=alert(1)>",
    line_number := none, suggested_fix_snippet := "" }

/-- An unsafe record with the finding `injectedVulnerability`. -/
def injectedRecord : IterationRecord :=
  { iteration := 0, code_snapshot := "",
    audit_report :=
      { is_safe := false, summary := "", vulnerabilities := [injectedVulnerability] },
    fix_applied := none }

/-- The record `injectedRecord` with an empty description in its finding. -/
def plainRecord : IterationRecord :=
  { iteration := 0, code_snapshot := "",
    audit_report :=
      { is_safe := false, summary := "",
        vulnerabilities := [{ injectedVulnerability with description := "" }] },
    fix_applied := none }

/-- A safe record whose summary is a piece of markup. -/
def injectedSafeRecord : IterationRecord :=
  { iteration := 0, code_snapshot := "",
    audit_report :=
      { is_safe := true, summary := "<img src=x onerror=alert(1)>", vulnerabilities := [] },
    fix_applied := none }

/-- A finding whose description opens an `img` tag and leaves a quoted attribute value
open, and whose suggested fix holds the closing quote. -/
def quotedVulnerability : Vulnerability :=
  { severity := "high", cwe_id := "CWE-79", description := "<img src=x title='",
    line_number := none, suggested_fix_snippet := "' onerror='alert(1)' " }

/-- An unsafe record with two findings: the description of the first opens a comment
and the description of the second closes it. -/
def commentRecord : IterationRecord :=
  { iteration := 0, code_snapshot := "",
    audit_report :=
      { is_safe := false, summary := "",
        vulnerabilities :=
          [{ severity := "high", cwe_id := "CWE-89", description := "<!--",
             line_number := none, suggested_fix_snippet := "" },
           { severity := "low", cwe_id := "CWE-209", description := "-->",
             line_number := none, suggested_fix_snippet := "" }] },
    fix_applied := none }

/-- An unsafe record without a fix, whose finding has a description that closes the
three open `div` elements, holds the markup of an "Applied Fix" block and opens a
comment. -/
def forgedFixRecord : IterationRecord :=
  { iteration := 0, code_snapshot := "",
    audit_report :=
      { is_safe := false, summary := "",
        vulnerabilities :=
          [{ severity := "high", cwe_id := "CWE-79",
             description := "</div></div></div>" ++ appliedFixHTML "forged" ++ "<!--",
             line_number := none, suggested_fix_snippet := "" }] },
    fix_applied := none }

/-- A record whose `iteration` is 2^53. -/
def largeIterationRecord : IterationRecord :=
  { iteration := 9007199254740992, code_snapshot := "",
    audit_report := { is_safe := true, summary := "", vulnerabilities := [] },
    fix_applied := none }

/-- Three safe records, numbered 0, 1 and 2. -/
def threeRecords : List IterationRecord :=
  [{ iteration := 0, code_snapshot := "a",
     audit_report := { is_safe := true, summary := "ok", vulnerabilities := [] },
     fix_applied := none },
   { iteration := 1, code_snapshot := "b",
     audit_report := { is_safe := true, summary := "ok", vulnerabilities := [] },
     fix_applied := none },
   { iteration := 2, code_snapshot := "c",
     audit_report := { is_safe := true, summary := "ok", vulnerabilities := [] },
     fix_applied := none }]

/-- A result whose `total_iterations` is 10^21. -/
def largeTotalResult : SessionResult :=
  { final_status := "max_iterations_reached", total_iterations := 1000000000000000000000,
    history := [] }

/-- A page that shows the results of an earlier analysis: one card, the badge of a
healed session, the results region visible, and `x` in the input. -/
def shownView : View String :=
  { codeInput := "x", analyzeDisabled := false, loadingClasses := ["loading"],
    resultsClasses := ["results", "active"],
    timeline := [createIterationCard unparsed injectedSafeRecord 0],
    badgeClasses := ["status-badge", "healed"], statusIcon := "",
    statusText := "Code Healed Successfully", iterationCount := "1 iteration",
    alerts := [], requests := [], consoleErrors := [], scrolls := 1 }

/-! ## Lemmas on numbers -/

theorem bitLengthAux_le (fuel : Nat) : ∀ n k : Nat, n < 2 ^ k → bitLengthAux fuel n ≤ k := by
  induction fuel with
  | zero => intro n k _; simp [bitLengthAux]
  | succ fuel ih =>
    intro n k h
    unfold bitLengthAux
    split_ifs with h0
    · exact Nat.zero_le k
    · cases k with
      | zero => simp at h; exact absurd h h0
      | succ k =>
        have h2 : n / 2 < 2 ^ k := by
          rw [Nat.div_lt_iff_lt_mul (by norm_num)]
          rw [pow_succ] at h
          exact h
        exact Nat.succ_le_succ (ih (n / 2) k h2)

/-- An integer below 2^53 is held as it is. -/
theorem toNumber_of_lt (n : Nat) (h : n < 2 ^ 53) : toNumber n = JSNumber.finite n := by
  have hb : bitLength n ≤ 53 := bitLengthAux_le n n 53 h
  have he : bitLength n - 53 = 0 := Nat.sub_eq_zero_of_le hb
  unfold toNumber
  simp only [he, pow_zero, Nat.div_one, Nat.mod_one, mul_zero, mul_one]
  have hb2 : ¬ 1024 < bitLength n := by omega
  simp [hb2]

/-- An integer up to 2^53 is held as it is. -/
theorem toNumber_of_le (n : Nat) (h : n ≤ 2 ^ 53) : toNumber n = JSNumber.finite n := by
  rcases Nat.lt_or_eq_of_le h with h1 | h1
  · exact toNumber_of_lt n h1
  · subst h1; decide

/-- The sum `n + 1` is exact for `n` below 2^53. -/
theorem numberSucc_toNumber (n : Nat) (h : n < 2 ^ 53) :
    numberSucc (toNumber n) = JSNumber.finite (n + 1) := by
  rw [toNumber_of_lt n h]
  exact toNumber_of_le (n + 1) h

/-- A number up to 2^53 is rendered with the decimal digits of its integer. -/
theorem numberToString_of_le (n : Nat) (h : n ≤ 2 ^ 53) :
    numberToString (JSNumber.finite n) = toString n := by
  show (if n ≤ 2 ^ 53 then toString n else _) = toString n
  rw [if_pos h]

/-! ## Lemmas on `escapeHtml` -/

theorem escapeChar_cases (c : Char) :
    escapeChar c = ['&', 'a', 'm', 'p', ';'] ∨ escapeChar c = ['&', 'l', 't', ';']
      ∨ escapeChar c = ['&', 'g', 't', ';'] ∨ escapeChar c = ['&', 'n', 'b', 's', 'p', ';']
      ∨ (escapeChar c = [c] ∧ c ≠ '&' ∧ c ≠ '<' ∧ c ≠ '>') := by
  unfold escapeChar
  split_ifs with h1 h2 h3 h4 <;> simp [*]

theorem not_mem_escapeChar (c x : Char) (hx : x = '<' ∨ x = '>') : x ∉ escapeChar c := by
  rcases escapeChar_cases c with h | h | h | h | ⟨h, -, h2, h3⟩
  all_goals rw [h]
  all_goals rcases hx with rfl | rfl
  all_goals first | decide | (simpa using Ne.symm h2) | (simpa using Ne.symm h3)

theorem not_mem_escapeChars (l : List Char) (x : Char) (hx : x = '<' ∨ x = '>') :
    x ∉ escapeChars l := by
  induction l with
  | nil => simp [escapeChars]
  | cons c cs ih =>
    simp only [escapeChars, List.mem_append, not_or]
    exact ⟨not_mem_escapeChar c x hx, ih⟩

theorem decodeEntities_escapeChars (l : List Char) : decodeEntities (escapeChars l) = l := by
  induction l with
  | nil => rfl
  | cons c cs ih =>
    simp only [escapeChars, escapeChar]
    split_ifs with h1 h2 h3 h4
    · subst h1; simp [decodeEntities, ih]
    · subst h2; simp [decodeEntities, ih]
    · subst h3; simp [decodeEntities, ih]
    · subst h4; simp [decodeEntities, ih]
    · rw [List.singleton_append, decodeEntities.eq_def]
      simp [h1, ih]

/-- A suffix of the serialisation that starts with `&` starts with one of the entities. -/
theorem amp_suffix_escapeChars (l : List Char) (suf : List Char)
    (hs : suf <:+ escapeChars l) (hh : suf.head? = some '&') :
    ∃ e ∈ entityNames, e <+: suf := by
  induction l with
  | nil =>
    simp only [escapeChars, List.suffix_nil] at hs
    subst hs; simp at hh
  | cons c cs ih =>
    simp only [escapeChars] at hs
    have ent : ∀ e ∈ entityNames, ∀ t, ∃ e' ∈ entityNames, e' <+: e ++ t :=
      fun e he t => ⟨e, he, List.prefix_append e t⟩
    rcases escapeChar_cases c with h | h | h | h | ⟨h, hc, -, -⟩
    · rw [h] at hs
      simp only [List.cons_append, List.nil_append, List.suffix_cons_iff] at hs
      rcases hs with rfl | rfl | rfl | rfl | rfl | hs
      · exact ent ['&', 'a', 'm', 'p', ';'] (by simp [entityNames]) _
      · simp at hh
      · simp at hh
      · simp at hh
      · simp at hh
      · exact ih hs
    · rw [h] at hs
      simp only [List.cons_append, List.nil_append, List.suffix_cons_iff] at hs
      rcases hs with rfl | rfl | rfl | rfl | hs
      · exact ent ['&', 'l', 't', ';'] (by simp [entityNames]) _
      · simp at hh
      · simp at hh
      · simp at hh
      · exact ih hs
    · rw [h] at hs
      simp only [List.cons_append, List.nil_append, List.suffix_cons_iff] at hs
      rcases hs with rfl | rfl | rfl | rfl | hs
      · exact ent ['&', 'g', 't', ';'] (by simp [entityNames]) _
      · simp at hh
      · simp at hh
      · simp at hh
      · exact ih hs
    · rw [h] at hs
      simp only [List.cons_append, List.nil_append, List.suffix_cons_iff] at hs
      rcases hs with rfl | rfl | rfl | rfl | rfl | rfl | hs
      · exact ent ['&', 'n', 'b', 's', 'p', ';'] (by simp [entityNames]) _
      · simp at hh
      · simp at hh
      · simp at hh
      · simp at hh
      · simp at hh
      · exact ih hs
    · rw [h] at hs
      simp only [List.cons_append, List.nil_append, List.suffix_cons_iff] at hs
      rcases hs with rfl | hs
      · simp at hh; exact absurd hh hc
      · exact ih hs

/-- The result of `escapeHtml` holds no `<` and no `>`, each `&` in it starts one of the
four entities, and decoding it gives the argument back. -/
theorem escapeHtml_properties (t : String) :
    '<' ∉ (escapeHtml t).data ∧ '>' ∉ (escapeHtml t).data
    ∧ (∀ suf, suf <:+ (escapeHtml t).data → suf.head? = some '&' →
        ∃ e ∈ entityNames, e <+: suf)
    ∧ decodeHtml (escapeHtml t) = t := by
  refine ⟨?_, ?_, ?_, ?_⟩
  · exact not_mem_escapeChars t.data '<' (Or.inl rfl)
  · exact not_mem_escapeChars t.data '>' (Or.inr rfl)
  · exact fun suf hs hh => amp_suffix_escapeChars t.data suf hs hh
  · simp [decodeHtml, escapeHtml, decodeEntities_escapeChars]

/-! ## C1 -/

set_option maxRecDepth 100000 in
/-- C1, at the failing input: a description `<img src=x onerror=alert(1)>` stands in the
text handed to the parser for the body of the card as it is, and adds one `<` to it (29
against the 28 of the same record with an empty description); a summary of a safe record
stands in that text as it is too. -/
theorem injected_markup_unescaped :
    (∃ pre post, (createIterationCard unparsed injectedRecord 0).body
        = pre ++ "<img src=x onerror=alert(1)>" ++ post)
    ∧ (createIterationCard unparsed injectedRecord 0).body.data.count '<' = 29
    ∧ (createIterationCard unparsed plainRecord 0).body.data.count '<' = 28
    ∧ (createIterationCard unparsed injectedSafeRecord 0).body
        = codeSnapshotHTML "" ++ safeMessageHTML "<img src=x onerror=alert(1)>" := by
  refine ⟨⟨codeSnapshotHTML "" ++ detectedHeaderHTML 1
      ++ "\n        <div class=\"vulnerability high\">\n            <div class=\"vuln-header\">\n                <span class=\"severity-badge high\">high</span>\n                <span class=\"cwe-tag\">CWE-79</span>\n            </div>\n            <div class=\"vuln-description\">",
    "</div>\n            \n            <div class=\"code-label\">Suggested Fix</div>\n            <div class=\"code-block\">\n                <code></code>\n            </div>\n        </div>\n    "
      ++ detectedFooterHTML, rfl⟩, by decide, by decide, rfl⟩

/-! ## C2 -/

set_option maxRecDepth 100000 in
/-- C2, at the failing input: `escapeHtml` leaves the suggested fix
`' onerror='alert(1)' ` as it is, and `createVulnerabilityHTML` puts it after a description
`<img src=x title='` that is not escaped.  The text between the quote that ends the
description and the quote that starts the suggested fix holds no quote, so the first
quote of the suggested fix closes the `title` value opened in the description and the
rest of the suggested fix stands inside the `img` tag. -/
theorem escaped_snippet_in_attribute :
    escapeHtml quotedVulnerability.suggested_fix_snippet = "' onerror='alert(1)' "
    ∧ createVulnerabilityHTML quotedVulnerability
        = "\n        <div class=\"vulnerability high\">\n            <div class=\"vuln-header\">\n                <span class=\"severity-badge high\">high</span>\n                <span class=\"cwe-tag\">CWE-79</span>\n            </div>\n            <div class=\"vuln-description\">"
          ++ "<img src=x title='"
          ++ "</div>\n            \n            <div class=\"code-label\">Suggested Fix</div>\n            <div class=\"code-block\">\n                <code>"
          ++ "' onerror='alert(1)' "
          ++ "</code>\n            </div>\n        </div>\n    "
    ∧ Char.ofNat 39 ∉
        ("</div>\n            \n            <div class=\"code-label\">Suggested Fix</div>\n            <div class=\"code-block\">\n                <code>" : String).data := by
  refine ⟨rfl, rfl, by decide⟩

/-! ## C3 -/

set_option maxRecDepth 100000 in
/-- C3, at the failing input: for the two findings of `commentRecord` the text handed to
the parser shows the count 2 and holds the two blocks, but the description of the first
block opens a comment that runs up to the description of the second, so the opening tag
of the second block stands inside the comment. -/
theorem commented_out_block :
    commentRecord.audit_report.vulnerabilities.length = 2
    ∧ (createIterationCard unparsed commentRecord 0).body
        = "\n        <div style=\"margin-bottom: 1.5rem;\">\n            <div class=\"code-label\">Code Snapshot</div>\n            <div class=\"code-block\">\n                <code></code>\n            </div>\n        </div>\n    "
            ++ "\n            <div style=\"margin-bottom: 1.5rem;\">\n                <h4 style=\"color: var(--text-secondary); margin-bottom: 1rem;\">\n                    Detected Vulnerabilities (2)\n                </h4>\n                "
          ++ "\n        <div class=\"vulnerability high\">\n            <div class=\"vuln-header\">\n                <span class=\"severity-badge high\">high</span>\n                <span class=\"cwe-tag\">CWE-89</span>\n            </div>\n            <div class=\"vuln-description\">"
          ++ "<!--"
          ++ "</div>\n            \n            <div class=\"code-label\">Suggested Fix</div>\n            <div class=\"code-block\">\n                <code></code>\n            </div>\n        </div>\n    "
          ++ "\n        <div class=\"vulnerability low\">\n            <div class=\"vuln-header\">\n                <span class=\"severity-badge low\">low</span>\n                <span class=\"cwe-tag\">CWE-209</span>\n            </div>\n            <div class=\"vuln-description\">"
          ++ "-->"
          ++ "</div>\n            \n            <div class=\"code-label\">Suggested Fix</div>\n            <div class=\"code-block\">\n                <code></code>\n            </div>\n        </div>\n    "
          ++ "\n            </div>\n        " := by
  refine ⟨rfl, rfl⟩

/-! ## C4 -/

set_option maxRecDepth 100000 in
/-- C4, at the failing input: the record `forgedFixRecord` has no `fix_applied`, and the
text handed to the parser for the body of its card holds, from the description that is
not escaped, three closing tags, a whole "Applied Fix" block (the text that
`appliedFixHTML` gives for the fix `forged`) and the opening of a comment that runs to the
end of the text. -/
theorem forged_applied_fix :
    forgedFixRecord.fix_applied = none
    ∧ (createIterationCard unparsed forgedFixRecord 0).body
        = "\n        <div style=\"margin-bottom: 1.5rem;\">\n            <div class=\"code-label\">Code Snapshot</div>\n            <div class=\"code-block\">\n                <code></code>\n            </div>\n        </div>\n    "
            ++ "\n            <div style=\"margin-bottom: 1.5rem;\">\n                <h4 style=\"color: var(--text-secondary); margin-bottom: 1rem;\">\n                    Detected Vulnerabilities (1)\n                </h4>\n                "
          ++ "\n        <div class=\"vulnerability high\">\n            <div class=\"vuln-header\">\n                <span class=\"severity-badge high\">high</span>\n                <span class=\"cwe-tag\">CWE-79</span>\n            </div>\n            <div class=\"vuln-description\">"
          ++ "</div></div></div>"
          ++ "\n            <div>\n                <div class=\"code-label\">Applied Fix</div>\n                <div class=\"code-block\">\n                    <code>forged</code>\n                </div>\n            </div>\n        "
          ++ "<!--"
          ++ "</div>\n            \n            <div class=\"code-label\">Suggested Fix</div>\n            <div class=\"code-block\">\n                <code></code>\n            </div>\n        </div>\n    "
          ++ "\n            </div>\n        "
    ∧ appliedFixHTML "forged"
        = "\n            <div>\n                <div class=\"code-label\">Applied Fix</div>\n                <div class=\"code-block\">\n                    <code>forged</code>\n                </div>\n            </div>\n        " := by
  refine ⟨rfl, rfl, rfl⟩

/-! ## C5 -/

theorem foldl_append_card {Dom : Type} (browser : Browser Dom)
    (l : List (Nat × IterationRecord)) (v : View Dom) :
    l.foldl
        (fun v p => { v with timeline := v.timeline ++ [createIterationCard browser p.2 p.1] })
        v
      = { v with
          timeline := v.timeline ++ l.map fun p => createIterationCard browser p.2 p.1 } := by
  induction l generalizing v with
  | nil => simp
  | cons p l ih => simp [List.foldl_cons, ih]

/-- The effect of `renderTimeline`: the timeline holds the cards of the records, in
order, and nothing else of the page changes. -/
theorem renderTimeline_eq {Dom : Type} (browser : Browser Dom)
    (history : List IterationRecord) (v : View Dom) :
    renderTimeline browser history v
      = { v with
          timeline := history.enum.map fun p => createIterationCard browser p.2 p.1 } := by
  simp [renderTimeline, foldl_append_card]

set_option maxRecDepth 100000 in
/-- C5, as stated, fails: for a record whose `iteration` is 2^53 = 9007199254740992 the sum
`iteration + 1` of JavaScript is 9007199254740992 again, and the header of its card reads
"Iteration 9007199254740992", not "Iteration 9007199254740993". -/
theorem large_iteration_header :
    (renderTimeline unparsed [largeIterationRecord] shownView).timeline.map Card.header
      = ["\n        <span class=\"iteration-title\">Iteration 9007199254740992</span>\n        <span class=\"toggle-icon\">‚ñº</span>\n    "]
    ∧ toString (largeIterationRecord.iteration + 1) = "9007199254740993"
    ∧ (renderTimeline unparsed [largeIterationRecord] shownView).timeline.map Card.header
      ≠ ["\n        <span class=\"iteration-title\">Iteration "
          ++ toString (largeIterationRecord.iteration + 1)
          ++ "</span>\n        <span class=\"toggle-icon\">‚ñº</span>\n    "] := by
  refine ⟨by decide, by decide, by decide⟩

/-- C5, amended: after `renderTimeline(history)` the timeline holds as many cards as
`history` has records, whatever it held before and whatever `total_iterations` is; the
i-th card is the card of the i-th record; and when the record's `iteration` is below 2^53
the header of the card is the content parsed from the text that reads "Iteration m" for
m the record's `iteration` plus one. -/
theorem renderTimeline_cards {Dom : Type} (browser : Browser Dom)
    (history : List IterationRecord) (v : View Dom) :
    (renderTimeline browser history v).timeline.length = history.length
    ∧ (∀ data : SessionResult, data.history = history →
        (displayResults browser data v).timeline = (renderTimeline browser history v).timeline)
    ∧ ∀ i (h : i < (renderTimeline browser history v).timeline.length)
        (h2 : i < history.length),
        (renderTimeline browser history v).timeline.get ⟨i, h⟩
            = createIterationCard browser (history.get ⟨i, h2⟩) i
        ∧ ((history.get ⟨i, h2⟩).iteration < 2 ^ 53 →
            ((renderTimeline browser history v).timeline.get ⟨i, h⟩).header
              = browser.parse
                  ("\n        <span class=\"iteration-title\">Iteration "
                    ++ toString ((history.get ⟨i, h2⟩).iteration + 1)
                    ++ "</span>\n        <span class=\"toggle-icon\">‚ñº</span>\n    ")) := by
  have hget : ∀ i (h : i < (renderTimeline browser history v).timeline.length)
      (h2 : i < history.length),
      (renderTimeline browser history v).timeline.get ⟨i, h⟩
        = createIterationCard browser (history.get ⟨i, h2⟩) i := by
    intro i h h2
    simp [renderTimeline_eq]
  refine ⟨by simp [renderTimeline_eq], ?_, fun i h h2 => ⟨hget i h h2, ?_⟩⟩
  · intro data hd
    simp [displayResults, renderTimeline_eq, hd]
  · intro hlt
    rw [hget i h h2]
    show browser.parse (iterationHeaderHTML (history.get ⟨i, h2⟩).iteration) = _
    unfold iterationHeaderHTML
    rw [numberSucc_toNumber _ hlt, numberToString_of_le _ hlt]

set_option maxRecDepth 100000 in
/-- C5, amended, at the sample of the specification: records numbered 0, 1, 2 give three
cards whose titles are Iteration 1, Iteration 2, Iteration 3, in that order. -/
theorem renderTimeline_cards_sample :
    (renderTimeline unparsed threeRecords shownView).timeline.length = 3
    ∧ (renderTimeline unparsed threeRecords shownView).timeline.map Card.header
      = ["\n        <span class=\"iteration-title\">Iteration 1</span>\n        <span class=\"toggle-icon\">‚ñº</span>\n    ",
         "\n        <span class=\"iteration-title\">Iteration 2</span>\n        <span class=\"toggle-icon\">‚ñº</span>\n    ",
         "\n        <span class=\"iteration-title\">Iteration 3</span>\n        <span class=\"toggle-icon\">‚ñº</span>\n    "] :=
  ⟨(renderTimeline_cards unparsed threeRecords shownView).1, by decide⟩

/-! ## C6 -/

theorem classListAdd_idem (token : String) (classes : List String) :
    classListAdd token (classListAdd token classes) = classListAdd token classes := by
  unfold classListAdd
  by_cases h : token ∈ classes <;> simp [h]

/-- C6: a second `displayResults(r)` right after the first leaves the badge (classes,
icon, text), the counter, the timeline and the visibility of the results as the first
left them; and the timeline after `displayResults(r)` is the list of the cards of the
records of `r`, all expanded, whatever the page held before. -/
theorem displayResults_idempotent {Dom : Type} (browser : Browser Dom) (r : SessionResult)
    (v : View Dom) :
    (displayResults browser r (displayResults browser r v)).badgeClasses
        = (displayResults browser r v).badgeClasses
    ∧ (displayResults browser r (displayResults browser r v)).statusIcon
        = (displayResults browser r v).statusIcon
    ∧ (displayResults browser r (displayResults browser r v)).statusText
        = (displayResults browser r v).statusText
    ∧ (displayResults browser r (displayResults browser r v)).iterationCount
        = (displayResults browser r v).iterationCount
    ∧ (displayResults browser r (displayResults browser r v)).timeline
        = (displayResults browser r v).timeline
    ∧ (displayResults browser r (displayResults browser r v)).resultsClasses
        = (displayResults browser r v).resultsClasses
    ∧ (displayResults browser r v).timeline
        = r.history.enum.map (fun p => createIterationCard browser p.2 p.1)
    ∧ (∀ w : View Dom,
        (displayResults browser r w).timeline = (displayResults browser r v).timeline)
    ∧ ∀ card ∈ (displayResults browser r v).timeline, card.collapsed = false := by
  have hcards : ∀ w : View Dom, (displayResults browser r w).timeline
      = r.history.enum.map (fun p => createIterationCard browser p.2 p.1) := by
    intro w
    simp [displayResults, renderTimeline_eq]
  have hcollapsed : ∀ card ∈ (displayResults browser r v).timeline,
      card.collapsed = false := by
    intro card hc
    rw [hcards v, List.mem_map] at hc
    obtain ⟨p, -, rfl⟩ := hc
    rfl
  refine ⟨?_, ?_, ?_, ?_, ?_, ?_, hcards v, fun w => by rw [hcards w, hcards v], hcollapsed⟩
  all_goals simp only [displayResults, renderTimeline_eq, updateStatusBadge]
  all_goals by_cases h1 : r.final_status = "safe"
  all_goals by_cases h2 : r.final_status = "healed"
  all_goals by_cases h3 : r.final_status = "max_iterations_reached"
  all_goals simp [h1, h2, h3, classListAdd_idem]

/-! ## C7 -/

/-- C7: whatever the badge held before, `updateStatusBadge(status)` leaves the class list
`status-badge` plus the variant of the status (`safe`, `healed`, `warning`) with the text
of that status; for a status outside the three, the class list is `status-badge` alone and
the icon and the text are the ones from before the call. -/
theorem updateStatusBadge_classes {Dom : Type} (status : String) (v : View Dom) :
    (status = "safe" →
      (updateStatusBadge status v).badgeClasses = ["status-badge", "safe"]
      ∧ (updateStatusBadge status v).statusText = "Code is Secure")
    ∧ (status = "healed" →
      (updateStatusBadge status v).badgeClasses = ["status-badge", "healed"]
      ∧ (updateStatusBadge status v).statusText = "Code Healed Successfully")
    ∧ (status = "max_iterations_reached" →
      (updateStatusBadge status v).badgeClasses = ["status-badge", "warning"]
      ∧ (updateStatusBadge status v).statusText = "Max Iterations Reached")
    ∧ (status ≠ "safe" → status ≠ "healed" → status ≠ "max_iterations_reached" →
      (updateStatusBadge status v).badgeClasses = ["status-badge"]
      ∧ (updateStatusBadge status v).statusIcon = v.statusIcon
      ∧ (updateStatusBadge status v).statusText = v.statusText) := by
  refine ⟨?_, ?_, ?_, ?_⟩
  · rintro rfl
    simp [updateStatusBadge, classListAdd]
  · rintro rfl
    simp [updateStatusBadge, classListAdd]
  · rintro rfl
    simp [updateStatusBadge, classListAdd]
  · intro h1 h2 h3
    simp [updateStatusBadge, h1, h2, h3]

/-- C7, at a sample page: a badge that was `healed` is `safe` after
`updateStatusBadge('safe')`, and bare after `updateStatusBadge('unknown')`. -/
theorem updateStatusBadge_classes_sample :
    (updateStatusBadge "safe" shownView).badgeClasses = ["status-badge", "safe"]
    ∧ (updateStatusBadge "unknown" shownView).badgeClasses = ["status-badge"]
    ∧ (updateStatusBadge "unknown" shownView).statusText = "Code Healed Successfully" :=
  ⟨((updateStatusBadge_classes "safe" shownView).1 rfl).1,
   ((updateStatusBadge_classes "unknown" shownView).2.2.2
      (by decide) (by decide) (by decide)).1,
   ((updateStatusBadge_classes "unknown" shownView).2.2.2
      (by decide) (by decide) (by decide)).2.2⟩

/-! ## C8 -/

set_option maxRecDepth 100000 in
/-- C8, as stated, fails: for `total_iterations` 10^21 the counter reads "1e+21 iterations",
not the decimal digits of 10^21 followed by " iterations". -/
theorem large_total_label :
    (displayResults unparsed largeTotalResult shownView).iterationCount = "1e+21 iterations"
    ∧ toString largeTotalResult.total_iterations = "1000000000000000000000"
    ∧ (displayResults unparsed largeTotalResult shownView).iterationCount
      ≠ toString largeTotalResult.total_iterations ++ " iterations" := by
  refine ⟨by decide, by decide, by decide⟩

theorem iterationLabel_of_le (n : Nat) (h : n ≤ 2 ^ 53) :
    iterationLabel n = toString n ++ (if n = 1 then " iteration" else " iterations") := by
  unfold iterationLabel
  rw [toNumber_of_le n h, numberToString_of_le n h]
  by_cases h1 : n = 1
  · simp [h1]
  · have h2 : JSNumber.finite n ≠ JSNumber.finite 1 := by
      intro hc
      exact h1 (JSNumber.finite.inj hc)
    simp only [h1, h2, ne_eq, not_false_eq_true, if_true, if_false, String.append_assoc]
    rfl

/-- C8, amended: for `total_iterations` up to 2^53 = 9007199254740992, `displayResults`
sets the counter to the decimal form of `total_iterations` followed by " iteration" when
it is 1 and by " iterations" otherwise; 0 gives "0 iterations", 1 gives "1 iteration", 5
gives "5 iterations". -/
theorem displayResults_counter {Dom : Type} (browser : Browser Dom) (data : SessionResult)
    (v : View Dom) (hN : data.total_iterations ≤ 2 ^ 53) :
    (displayResults browser data v).iterationCount
      = toString data.total_iterations
        ++ (if data.total_iterations = 1 then " iteration" else " iterations")
    ∧ iterationLabel 0 = "0 iterations"
    ∧ iterationLabel 1 = "1 iteration"
    ∧ iterationLabel 5 = "5 iterations" := by
  refine ⟨?_, by decide, by decide, by decide⟩
  have h : (displayResults browser data v).iterationCount
      = iterationLabel data.total_iterations := by
    simp [displayResults, renderTimeline_eq]
  rw [h, iterationLabel_of_le _ hN]

/-- C8, amended, at a sample input: five iterations. -/
theorem displayResults_counter_sample :
    (displayResults unparsed
        { final_status := "healed", total_iterations := 5, history := [] }
        shownView).iterationCount
      = "5 iterations" :=
  (displayResults_counter unparsed
    { final_status := "healed", total_iterations := 5, history := [] } shownView
    (by decide)).1

/-! ## C9 -/

theorem trimChars_eq_nil_iff (l : List Char) :
    trimChars l = [] ↔ ∀ c ∈ l, isTrimChar c = true := by
  unfold trimChars
  rw [List.reverse_eq_nil_iff, List.dropWhile_eq_nil_iff]
  constructor
  · intro h
    have h2 : ∀ c ∈ l.dropWhile isTrimChar, isTrimChar c = true :=
      fun c hc => h c (List.mem_reverse.mpr hc)
    have h3 : l.dropWhile isTrimChar = [] := by
      by_contra hne
      have := List.head_dropWhile_not isTrimChar l hne
      rw [h2 _ (List.head_mem hne)] at this
      exact absurd this (by simp)
    exact List.dropWhile_eq_nil_iff.mp h3
  · intro h c hc
    rw [List.dropWhile_eq_nil_iff.mpr h] at hc
    simp at hc

theorem trim_eq_empty_iff (text : String) :
    trim text = "" ↔ ∀ c ∈ text.data, isTrimChar c = true := by
  rw [← trimChars_eq_nil_iff]
  unfold trim
  constructor
  · intro h
    have := congrArg String.data h
    simpa using this
  · intro h
    rw [h]

theorem displayResults_frame {Dom : Type} (browser : Browser Dom) (data : SessionResult)
    (v : View Dom) :
    (displayResults browser data v).codeInput = v.codeInput
    ∧ (displayResults browser data v).alerts = v.alerts
    ∧ (displayResults browser data v).requests = v.requests
    ∧ (displayResults browser data v).consoleErrors = v.consoleErrors := by
  simp only [displayResults, renderTimeline_eq, updateStatusBadge]
  by_cases h1 : data.final_status = "safe"
  · simp [h1]
  · by_cases h2 : data.final_status = "healed"
    · simp [h2]
    · by_cases h3 : data.final_status = "max_iterations_reached" <;> simp [h1, h2, h3]

theorem analyzeTry_requests {Dom : Type} (browser : Browser Dom) (apiBase code : String)
    (outcome : FetchOutcome) (v : View Dom) :
    (analyzeTry browser apiBase code outcome v).requests
      = v.requests ++ [{ url := apiBase ++ "/audit", method := "POST",
                         contentType := "application/json", code := code }] := by
  unfold analyzeTry
  cases outcome with
  | networkError message => simp [analyzeCatch]
  | response status body =>
    by_cases hok : responseOk status = true
    · cases body with
      | error message => simp [hok, analyzeCatch]
      | ok data => simp [hok, (displayResults_frame browser data _).2.2.1]
    · simp [hok, analyzeCatch]

/-- C9: for an input that is empty or made of white space only, `analyzeCode` shows the
prompt and changes nothing else of the page: no request is issued, and the button, the
loading indicator, the results region and the timeline are as before.  For any other
input the call issues one request, with the trimmed input as its code, however the
request resolves. -/
theorem analyzeCode_blank_input {Dom : Type} (browser : Browser Dom) (apiBase : String)
    (outcome : FetchOutcome) (v : View Dom) :
    ((∀ c ∈ v.codeInput.data, isTrimChar c = true) →
      analyzeCode browser apiBase outcome v
        = { v with alerts := v.alerts ++ ["Please enter some code to analyze"] })
    ∧ ((∃ c ∈ v.codeInput.data, isTrimChar c = false) →
      (analyzeCode browser apiBase outcome v).requests
        = v.requests ++ [{ url := apiBase ++ "/audit", method := "POST",
                           contentType := "application/json",
                           code := trim v.codeInput }]) := by
  constructor
  · intro h
    have ht := (trim_eq_empty_iff v.codeInput).mpr h
    simp [analyzeCode, ht]
  · rintro ⟨c, hc, hcf⟩
    have ht : trim v.codeInput ≠ "" := by
      intro h
      have := (trim_eq_empty_iff v.codeInput).mp h c hc
      rw [hcf] at this
      exact absurd this (by simp)
    simp [analyzeCode, ht, analyzeTry_requests]

/-- C9, at sample inputs: the input of three white space characters issues no request,
and the input `x` issues one. -/
theorem analyzeCode_blank_input_sample :
    analyzeCode unparsed "/api" (FetchOutcome.networkError "Failed to fetch")
        { shownView with codeInput := " \t\n" }
      = { shownView with codeInput := " \t\n",
                         alerts := ["Please enter some code to analyze"] }
    ∧ (analyzeCode unparsed "/api" (FetchOutcome.networkError "Failed to fetch") shownView).requests
      = [{ url := "/api/audit", method := "POST", contentType := "application/json",
           code := "x" }] := by
  have h := analyzeCode_blank_input unparsed "/api" (FetchOutcome.networkError "Failed to fetch")
    { shownView with codeInput := " \t\n" }
  have h2 := analyzeCode_blank_input unparsed "/api" (FetchOutcome.networkError "Failed to fetch")
    shownView
  exact ⟨h.1 (by decide), h2.2 (by decide)⟩

/-! ## C10 -/

/-- C10, as stated, fails: results shown before a submission are hidden after the
submission has failed. -/
theorem failed_submission_hides_results :
    FetchOutcome.failed (FetchOutcome.networkError "Failed to fetch") = true
    ∧ trim shownView.codeInput ≠ ""
    ∧ "active" ∈ shownView.resultsClasses
    ∧ "active" ∉
        (analyzeCode unparsed "/api" (FetchOutcome.networkError "Failed to fetch")
          shownView).resultsClasses := by
  decide

theorem not_mem_classListRemove (token : String) (classes : List String) :
    token ∉ classListRemove token classes := by
  simp [classListRemove]

/-- C10, amended: a submission that fails shows one notification, issues one request, and
leaves the input, the badge, the counter and the timeline as they were; the results
region is hidden, whether it was shown before or not. -/
theorem analyzeCode_failed {Dom : Type} (browser : Browser Dom) (apiBase : String)
    (outcome : FetchOutcome) (v : View Dom)
    (hcode : trim v.codeInput ≠ "") (hfail : outcome.failed = true) :
    (∃ message, (analyzeCode browser apiBase outcome v).alerts = v.alerts ++ [message])
    ∧ (analyzeCode browser apiBase outcome v).codeInput = v.codeInput
    ∧ (analyzeCode browser apiBase outcome v).badgeClasses = v.badgeClasses
    ∧ (analyzeCode browser apiBase outcome v).statusIcon = v.statusIcon
    ∧ (analyzeCode browser apiBase outcome v).statusText = v.statusText
    ∧ (analyzeCode browser apiBase outcome v).iterationCount = v.iterationCount
    ∧ (analyzeCode browser apiBase outcome v).timeline = v.timeline
    ∧ (analyzeCode browser apiBase outcome v).resultsClasses
        = classListRemove "active" v.resultsClasses
    ∧ "active" ∉ (analyzeCode browser apiBase outcome v).resultsClasses := by
  have key : ∃ message, analyzeCode browser apiBase outcome v
      = { v with
          analyzeDisabled := false,
          loadingClasses :=
            classListRemove "active" (classListAdd "active" v.loadingClasses),
          resultsClasses := classListRemove "active" v.resultsClasses,
          requests := v.requests ++ [{ url := apiBase ++ "/audit", method := "POST",
                                       contentType := "application/json",
                                       code := trim v.codeInput }],
          consoleErrors := v.consoleErrors ++ [message],
          alerts := v.alerts ++
            ["Error: " ++ message
              ++ "\n\nPlease check that:\n1. Backend server is running\n2. NVIDIA_API_KEY is configured in .env"] } := by
    cases outcome with
    | networkError message =>
      exact ⟨message, by simp [analyzeCode, hcode, analyzeTry, analyzeCatch]⟩
    | response status body =>
      by_cases hok : responseOk status = true
      · cases body with
        | error message =>
          exact ⟨message, by simp [analyzeCode, hcode, analyzeTry, analyzeCatch, hok]⟩
        | ok data => simp [FetchOutcome.failed, hok] at hfail
      · exact ⟨"HTTP error! status: " ++ numberToString (toNumber status),
          by simp [analyzeCode, hcode, analyzeTry, analyzeCatch, hok]⟩
  obtain ⟨message, h⟩ := key
  rw [h]
  exact ⟨⟨_, rfl⟩, rfl, rfl, rfl, rfl, rfl, rfl, rfl, not_mem_classListRemove _ _⟩

/-- C10, amended, at a sample input: the page `shownView` after a rejected request. -/
theorem analyzeCode_failed_sample :
    (∃ message,
        (analyzeCode unparsed "/api" (FetchOutcome.networkError "Failed to fetch") shownView).alerts
          = shownView.alerts ++ [message])
    ∧ (analyzeCode unparsed "/api" (FetchOutcome.networkError "Failed to fetch") shownView).timeline
        = shownView.timeline
    ∧ "active" ∉
        (analyzeCode unparsed "/api" (FetchOutcome.networkError "Failed to fetch")
          shownView).resultsClasses := by
  have h := analyzeCode_failed unparsed "/api" (FetchOutcome.networkError "Failed to fetch") shownView
    (by decide) (by decide)
  exact ⟨h.1, h.2.2.2.2.2.2.1, h.2.2.2.2.2.2.2.2⟩

end Auditor
